import Mathlib

/-!
Shallow embedding of `src/pdf_processor.py` (PDFProcessor repository).

Python strings are modelled as `String` / `List Char` (the manuals handled by
the program are ASCII); machine-level effects are modelled explicitly:
the outcome of opening a document is an input of type `DocInput`
(file missing / open fault / opened page list), and filesystem image writes
are modelled as the pure emission of `ImageRef` values.

Each definition translates the Python function of the same (snake-cased)
name; regular expressions are translated into executable character-list
scanners equivalent to the Python patterns on newline-free lines (lines are
produced by splitting on a newline, so they never contain one).
-/

namespace PDFProc

/-- Python whitespace set for `str.strip()` and `\s` (ASCII fragment). -/
def isPySpace (c : Char) : Bool :=
  c == ' ' || c == '\t' || c == '\n' || c == '\r' || c == '\x0b' || c == '\x0c'

/-- Character class `[A-Z0-9\-]` used by the row/part-number patterns. -/
def isPartChar (c : Char) : Bool := c.isUpper || c.isDigit || c == '-'

/-- Character class `\w` (ASCII fragment). -/
def isWordChar (c : Char) : Bool := c.isAlphanum || c == '_'

/-- Characters stripped by Python `str.strip(' .')`. -/
def isDotSp (c : Char) : Bool := c == ' ' || c == '.'

/-- Python `str.upper()` (ASCII fragment), on a character list. -/
def upperL (l : List Char) : List Char := l.map Char.toUpper

/-- Strip characters satisfying `p` from both ends (Python `str.strip`). -/
def stripWith (p : Char → Bool) (l : List Char) : List Char :=
  ((l.dropWhile p).reverse.dropWhile p).reverse

/-- Python `str.strip()` (no arguments): strip whitespace from both ends. -/
def stripWs (l : List Char) : List Char := stripWith isPySpace l

/-- Python substring test `needle in hay`. -/
def hasSub (needle : List Char) : List Char → Bool
  | [] => needle.isEmpty
  | c :: rest => needle.isPrefixOf (c :: rest) || hasSub needle rest

/-- Split a character list at every newline (Python `text.split('\n')`). -/
def splitNl : List Char → List (List Char)
  | [] => [[]]
  | c :: rest =>
    if c == '\n' then [] :: splitNl rest
    else
      match splitNl rest with
      | [] => [[c]]
      | h :: t => (c :: h) :: t

/-- Python `text.split('\n')`, as character lists. -/
def pyLines (s : String) : List (List Char) := splitNl s.data

/-- `len(text.strip())`: length of the text stripped of leading/trailing
whitespace, the quantity the page loop compares against 100. -/
def strippedLen (s : String) : Nat := (stripWs s.data).length

/-- `re.match(r'^\d+\s+[A-Z0-9\-]{4,}', line)`: a maximal leading digit run,
then a whitespace run, then at least 4 part-number characters. -/
def matchR1 (l : List Char) : Bool :=
  !(l.takeWhile Char.isDigit).isEmpty &&
  !(((l.dropWhile Char.isDigit).takeWhile isPySpace).isEmpty) &&
  decide (4 ≤ (((l.dropWhile Char.isDigit).dropWhile isPySpace).takeWhile isPartChar).length)

/-- `re.match(r'^\d+\.+[A-Z0-9\-]{4,}', line)`: digits, then dots, then at
least 4 part-number characters. -/
def matchR2 (l : List Char) : Bool :=
  !(l.takeWhile Char.isDigit).isEmpty &&
  !(((l.dropWhile Char.isDigit).takeWhile (· == '.')).isEmpty) &&
  decide (4 ≤ (((l.dropWhile Char.isDigit).dropWhile (· == '.')).takeWhile isPartChar).length)

/-- Scanner for the tail of pattern `^\d+.*[A-Z0-9\-]{5,}.*[A-Za-z]`:
somewhere a run of 5 part-number characters, with a letter after it. -/
def r3After : List Char → Bool
  | [] => false
  | c :: rest =>
    (decide (((c :: rest).take 5).length = 5) && ((c :: rest).take 5).all isPartChar
      && ((c :: rest).drop 5).any Char.isAlpha) || r3After rest

/-- `re.match(r'^\d+.*[A-Z0-9\-]{5,}.*[A-Za-z]', line)` (equivalently
`re.search` of the same anchored pattern): a leading digit, then somewhere a
5-run of `[A-Z0-9\-]` followed later by a letter. -/
def matchR3 : List Char → Bool
  | [] => false
  | c :: rest => c.isDigit && r3After rest

/-- `re.match(r'^\d+', line)`: the line starts with a digit. -/
def lineStartsDigit : List Char → Bool
  | [] => false
  | c :: _ => c.isDigit

/-- `re.search(r'[A-Z0-9\-]{4,}', line)`: some 4-run of part characters. -/
def hasRun4 : List Char → Bool
  | [] => false
  | c :: rest =>
    (decide (((c :: rest).take 4).length = 4) && ((c :: rest).take 4).all isPartChar)
      || hasRun4 rest

/-- Delimiter-run threshold test: `none` means this delimiter is absent from
the split pattern. -/
def thrHit (t : Option Nat) (n : Nat) : Bool :=
  match t with
  | none => false
  | some k => decide (k ≤ n)

/-- Kind of a character for run-grouping: dot, whitespace, or other. -/
def charKind (c : Char) : Nat := if c == '.' then 1 else if isPySpace c then 2 else 0

/-- Group a line into maximal runs of characters of equal kind. -/
def runsOf : List Char → List (List Char) :=
  List.foldr
    (fun c acc =>
      match acc with
      | [] => [[c]]
      | r :: rs =>
        match r with
        | [] => [c] :: rs
        | d :: _ => if charKind c == charKind d then (c :: r) :: rs else [c] :: (r :: rs))
    []

/-- A run is a split delimiter when it is a dot run of length at least `dthr`
or a whitespace run of length at least `wthr`. -/
def isDelimRun (dthr wthr : Option Nat) : List Char → Bool
  | [] => false
  | c :: rest =>
    (c == '.' && thrHit dthr (rest.length + 1)) || (isPySpace c && thrHit wthr (rest.length + 1))

/-- `re.split` on the alternation of a dot run (length ≥ `dthr`) and a
whitespace run (length ≥ `wthr`); `none` disables that alternative.
Instantiated as: `re.split(r'\s{2,}', ...)` = `runSplit none (some 2)`,
`re.split(r'\.{3,}', ...)` = `runSplit (some 3) none`,
`re.split(r'\.{2,}|\s{3,}', ...)` = `runSplit (some 2) (some 3)`,
`re.split(r'\.{3,}|\s{3,}', ...)` = `runSplit (some 3) (some 3)`. -/
def runSplit (dthr wthr : Option Nat) (l : List Char) : List (List Char) :=
  let fin := (runsOf l).foldl
    (fun st r => if isDelimRun dthr wthr r then (st.1 ++ [st.2], ([] : List Char)) else (st.1, st.2 ++ r))
    ([], [])
  fin.1 ++ [fin.2]

/-- `[p.strip(chars) for p in parts if p.strip(chars)]`: strip each candidate
with the given character predicate and drop the empty ones. -/
def cleanParts (p : Char → Bool) (parts : List (List Char)) : List String :=
  parts.filterMap (fun part =>
    if (stripWith p part).isEmpty then none else some (String.mk (stripWith p part)))

/-- `'W'` or `'w'` (the pattern `WM\d+\w*` is compiled with `re.IGNORECASE`). -/
def isWCh (c : Char) : Bool := c == 'W' || c == 'w'

/-- `'M'` or `'m'`. -/
def isMCh (c : Char) : Bool := c == 'M' || c == 'm'

/-- Greedy match of `WM\d+\w*` (case-insensitive) at the head of the list:
`W`, `M`, a digit, then the maximal word-character run. -/
def matchAtWM : List Char → Option (List Char)
  | c1 :: c2 :: c3 :: rest =>
    if isWCh c1 && isMCh c2 && c3.isDigit then
      some (c1 :: c2 :: (c3 :: rest).takeWhile isWordChar)
    else none
  | _ => none

/-- `re.search(r'(WM\d+\w*)', filename, re.IGNORECASE)`: leftmost match. -/
def findWM : List Char → Option (List Char)
  | [] => none
  | c :: rest =>
    match matchAtWM (c :: rest) with
    | some t => some t
    | none => findWM rest

/-- `extract_model_name_simple`, applied to the filename stem: return the
matched `WM...` token upper-cased, or the stem verbatim when there is none. -/
def extractModelNameSimple (stem : String) : String :=
  match findWM stem.data with
  | some t => String.mk (t.map Char.toUpper)
  | none => stem

/-- The five header tokens of `simple_table_check`. -/
def tableIndicators : List String := ["NO.", "PART NO.", "PART NAME", "QTY", "REMARKS"]

/-- Header-hit count: how many of the five indicator tokens occur as
substrings of the upper-cased page text. -/
def headerCount (text : String) : Nat :=
  tableIndicators.countP (fun kw => hasSub kw.data (upperL text.data))

/-- One line of the data-row loop of `simple_table_check`: strip, skip empty,
and test the three row-shaped regexes. -/
def isDataRowLine (raw : List Char) : Bool :=
  !(stripWs raw).isEmpty &&
    (matchR1 (stripWs raw) || matchR2 (stripWs raw) || matchR3 (stripWs raw))

/-- Data-row hit count of `simple_table_check`: the loop runs over
`lines[:15]` only. -/
def dataRowCount15 (text : String) : Nat :=
  ((pyLines text).take 15).countP isDataRowLine

/-- `simple_table_check`: a page is a table when there are at least 2 header
hits or at least 3 data-row hits (among the first 15 lines). -/
def simpleTableCheck (text : String) : Bool :=
  decide (2 ≤ headerCount text) || decide (3 ≤ dataRowCount15 text)

/-- Keywords whose presence (as a substring of the upper-cased line) makes
`extract_table_basic` skip the line. -/
def skipWords : List String :=
  ["NO.", "PART NO.", "PART NAME", "QTY", "REMARKS", "PAGE", "MIXER", "MANUAL", "REV."]

/-- The skip test of the row loop: some keyword occurs in the upper-cased
line, or the line equals the detected page title case-insensitively. -/
def skipLineB (title line : List Char) : Bool :=
  skipWords.any (fun w => hasSub w.data (upperL line)) || upperL line == upperL title

/-- The three row patterns of `extract_table_basic`, tried in order on the
stripped line; returns the cleaned column candidates (`row_data`). -/
def rowCandidate (line : List Char) : Option (List String) :=
  if matchR1 line then
    if 3 ≤ (runSplit none (some 2) line).length then
      some (cleanParts isPySpace (runSplit none (some 2) line))
    else none
  else if hasSub ['.', '.', '.'] line && matchR2 line then
    some (cleanParts isDotSp (runSplit (some 3) none line))
  else if lineStartsDigit line && hasRun4 line then
    if 2 ≤ (runSplit (some 2) (some 3) line).length then
      some (cleanParts isDotSp (runSplit (some 2) (some 3) line))
    else none
  else none

/-- `while len(row_data) < 5: row_data.append("")` followed by
`row_data[:5]`: right-pad with empty strings to 5, truncate to 5. -/
def rowPadded (rd : List String) : List String :=
  (rd ++ List.replicate (5 - rd.length) "").take 5

/-- One iteration of the row loop of `extract_table_basic`: strip the line,
drop short lines, drop header/title lines, try the three patterns, and keep
the padded row when at least 2 cleaned fields survive. -/
def lineToRow (title raw : List Char) : Option (List String) :=
  if (stripWs raw).isEmpty || (stripWs raw).length < 10 then none
  else if skipLineB title (stripWs raw) then none
  else
    match rowCandidate (stripWs raw) with
    | some rd => if 2 ≤ rd.length then some (rowPadded rd) else none
    | none => none

/-- Title scan helper: first stripped line longer than 5 characters that does
not start with `PAGE` or `WM63SLF`. -/
def findTitleGo : List (List Char) → List Char
  | [] => []
  | l :: rest =>
    if 5 < (stripWs l).length && !("PAGE".data.isPrefixOf (stripWs l))
        && !("WM63SLF".data.isPrefixOf (stripWs l)) then
      stripWs l
    else findTitleGo rest

/-- Page-title detection of `extract_table_basic`: scan `lines[:10]`. -/
def findTitle (lines : List (List Char)) : List Char := findTitleGo (lines.take 10)

/-- One extracted table: page number (1-based), model, title, rows. -/
structure TableData where
  page : Nat
  model : String
  title : String
  rows : List (List String)
  deriving DecidableEq

/-- `page_title or f"Parts Table - Page {page_num + 1}"`. -/
def tableTitle (lines : List (List Char)) (pageNum : Nat) : String :=
  if (findTitle lines).isEmpty then "Parts Table - Page " ++ toString (pageNum + 1)
  else String.mk (findTitle lines)

/-- `extract_table_basic` on the lines of page `pageNum` (0-based): the row
loop is stateless per line, so the collected rows are a `filterMap`; a table
record is returned only when at least one row was found. -/
def extractTableBasic (lines : List (List Char)) (pageNum : Nat) (model : String) :
    List TableData :=
  if (lines.filterMap (lineToRow (findTitle lines))).isEmpty then []
  else
    [{ page := pageNum + 1, model := model, title := tableTitle lines pageNum,
       rows := lines.filterMap (lineToRow (findTitle lines)) }]

/-- One spare-parts entry of `extract_spare_parts_basic`. -/
structure SparePart where
  model : String
  quantity : String
  partNumber : String
  description : String
  deriving DecidableEq

/-- One line of `extract_spare_parts_basic`: lines of at least 10 characters
matching the row-shape regex are split on `\.{3,}|\s{3,}` and mapped to
(quantity, part number, description) when at least 3 cleaned fields remain. -/
def spareFromLine (model : String) (raw : List Char) : Option SparePart :=
  if (stripWs raw).isEmpty || (stripWs raw).length < 10 then none
  else if matchR3 (stripWs raw) then
    if 3 ≤ (runSplit (some 3) (some 3) (stripWs raw)).length then
      match cleanParts isDotSp (runSplit (some 3) (some 3) (stripWs raw)) with
      | q :: pn :: d :: rest => some ⟨model, q, pn, String.intercalate " " (d :: rest)⟩
      | _ => none
    else none
  else none

/-- `extract_spare_parts_basic` over the anchor page's lines. -/
def extractSparePartsBasic (lines : List (List Char)) (model : String) : List SparePart :=
  lines.filterMap (spareFromLine model)

/-- A page as supplied by the PDF-rendering collaborator: its text, the
(width, height) of each embedded raster image, and the count of vector
drawing primitives. -/
structure PageData where
  text : String
  images : List (Nat × Nat)
  drawings : Nat

/-- A persisted image artifact, keyed the way the Python filenames are:
`{model}_page_{page}_img_{idx}.png` and `{model}_page_{page}_diagram.png`. -/
inductive ImageRef where
  | embedded (model : String) (page idx : Nat)
  | rendered (model : String) (page : Nat)
  deriving DecidableEq

/-- `extract_image_basic`: keep each embedded image strictly larger than
50×50, and add a whole-page rendering when the page has more than 100
drawing primitives. -/
def extractImageBasic (p : PageData) (pageNum : Nat) (model : String) : List ImageRef :=
  (p.images.enum.filterMap (fun iw =>
      if 50 < iw.2.1 && 50 < iw.2.2 then some (.embedded model (pageNum + 1) (iw.1 + 1))
      else none))
    ++ (if 100 < p.drawings then [ImageRef.rendered model (pageNum + 1)] else [])

/-- The three verdicts of the per-page branch of `process_pdf_simple`. -/
inductive PageClass where
  | skip
  | table
  | diagram
  deriving DecidableEq

/-- The per-page branch of `process_pdf_simple` (lines 349-373): pages with
`len(text.strip()) < 100` are skipped, otherwise `simple_table_check`
decides table versus image/diagram; images and drawings are not consulted. -/
def classifyPage (p : PageData) : PageClass :=
  if strippedLen p.text < 100 then .skip
  else if simpleTableCheck p.text then .table
  else .diagram

/-- The anchor marker of `find_spare_parts_page_simple`. -/
def markerChars : List Char := "SUGGESTED SPARE PARTS".data

/-- Scan pages from index `i` for the marker in the upper-cased page text. -/
def findAnchorFrom (i : Nat) : List PageData → Option Nat
  | [] => none
  | p :: rest =>
    if hasSub markerChars (upperL p.text.data) then some i
    else findAnchorFrom (i + 1) rest

/-- `find_spare_parts_page_simple`: 0-based index of the first page whose
text contains `SUGGESTED SPARE PARTS`, or `None`. -/
def findSparePartsPage (pages : List PageData) : Option Nat := findAnchorFrom 0 pages

/-- The page loop after the anchor: `idx` is the absolute 0-based page index
of the head of the list. -/
def loopPages (model : String) : List PageData → Nat → List TableData × List ImageRef
  | [], _ => ([], [])
  | p :: rest, idx =>
    match classifyPage p with
    | .skip => loopPages model rest (idx + 1)
    | .table =>
      (extractTableBasic (pyLines p.text) idx model ++ (loopPages model rest (idx + 1)).1,
       (loopPages model rest (idx + 1)).2)
    | .diagram =>
      ((loopPages model rest (idx + 1)).1,
       extractImageBasic p idx model ++ (loopPages model rest (idx + 1)).2)

/-- Outcome of locating and opening the document, made explicit:
the file is missing, `fitz.open` raises with a message, or the document
opens as a list of pages. -/
inductive DocInput where
  | missing
  | openError (msg : String)
  | ok (pages : List PageData)

/-- The `results` dictionary of `process_pdf_simple`. -/
structure ProcResult where
  model : String
  spareParts : List SparePart
  images : List ImageRef
  tables : List TableData
  status : String
  deriving DecidableEq

/-- `doc[i]` with a default for the (unreachable) out-of-range case. -/
def pageAt (pages : List PageData) (i : Nat) : PageData :=
  (pages.get? i).getD ⟨"", [], 0⟩

/-- `process_pdf_simple`: `None` when the file does not exist; a result with
`error` status when opening raises; otherwise spare parts from the anchor
page and tables/images from all later pages, with `success` status.
When no anchor page is found, no page at all is processed. -/
def processPdf (stem : String) (input : DocInput) : Option ProcResult :=
  match input with
  | .missing => none
  | .openError e =>
    some ⟨extractModelNameSimple stem, [], [], [], "error: " ++ e⟩
  | .ok pages =>
    match findSparePartsPage pages with
    | none => some ⟨extractModelNameSimple stem, [], [], [], "success"⟩
    | some i =>
      some ⟨extractModelNameSimple stem,
            extractSparePartsBasic (pyLines (pageAt pages i).text) (extractModelNameSimple stem),
            (loopPages (extractModelNameSimple stem) (pages.drop (i + 1)) (i + 1)).2,
            (loopPages (extractModelNameSimple stem) (pages.drop (i + 1)) (i + 1)).1,
            "success"⟩

/-! ### Definitions taken from the specification's words (for comparison) -/

/-- Modelled from the spec: the claimed data-row hit count, "number of lines
of the page text matching" the row shape — over all lines, with no
first-15-lines restriction. -/
def dataRowCountSpec (text : String) : Nat := (pyLines text).countP isDataRowLine

/-- Modelled from the spec: the claimed "non-whitespace text length" — the
number of non-whitespace characters of the page text. -/
def nonWsLen (s : String) : Nat := (s.data.filter (fun c => !isPySpace c)).length

/-- Modelled from the spec: presence of a substring of the form "two letters
followed by digits followed by optional trailing word characters". -/
def specModelTokenPresent : List Char → Bool
  | [] => false
  | c1 :: rest =>
    (match rest with
     | c2 :: c3 :: _ => c1.isAlpha && c2.isAlpha && c3.isDigit
     | _ => false) || specModelTokenPresent rest

/-! ### Helper lemmas -/

/-- `hasSub` decides list-infix containment. -/
theorem hasSub_iff {n : List Char} : ∀ {h : List Char}, hasSub n h = true ↔ n <:+: h := by
  intro h
  induction h with
  | nil =>
    simp [hasSub, List.isEmpty_iff, List.infix_nil]
  | cons c t ih =>
    simp only [hasSub, Bool.or_eq_true, ih, List.isPrefixOf_iff_prefix]
    rw [List.infix_cons_iff]

/-- The padded row always has exactly 5 fields. -/
theorem rowPadded_length (rd : List String) : (rowPadded rd).length = 5 := by
  simp only [rowPadded, List.length_take, List.length_append, List.length_replicate]
  omega

/-- The padded row is the first 5 fields of the candidate list, right-padded
with empty strings up to length 5. -/
theorem rowPadded_eq (rd : List String) :
    rowPadded rd = rd.take 5 ++ List.replicate (5 - rd.length) "" := by
  by_cases h : 5 ≤ rd.length
  · have h0 : 5 - rd.length = 0 := Nat.sub_eq_zero_of_le h
    simp [rowPadded, h0]
  · have h1 : rd.length ≤ 5 := Nat.le_of_lt (Nat.lt_of_not_le h)
    have h2 : (rd ++ List.replicate (5 - rd.length) "").length ≤ 5 := by
      simp only [List.length_append, List.length_replicate]
      omega
    rw [rowPadded, List.take_of_length_le h2, List.take_of_length_le h1]

/-- Any row emitted by the per-line step comes from an accepted candidate
list of at least 2 fields, padded. -/
theorem lineToRow_shape {title raw : List Char} {row : List String}
    (h : lineToRow title raw = some row) :
    ∃ rd, 2 ≤ rd.length ∧ row = rowPadded rd := by
  unfold lineToRow at h
  split at h
  · simp at h
  · split at h
    · simp at h
    · rcases hc : rowCandidate (stripWs raw) with _ | rd
      · rw [hc] at h
        simp at h
      · rw [hc] at h
        replace h : (if 2 ≤ rd.length then some (rowPadded rd) else none) = some row := h
        by_cases hl : 2 ≤ rd.length
        · rw [if_pos hl] at h
          exact ⟨rd, hl, (Option.some.injEq _ _ ▸ h).symm⟩
        · rw [if_neg hl] at h
          simp at h

/-- A line whose stripped form does not start with a digit never produces a
row candidate: all three patterns require a leading digit. -/
theorem rowCandidate_none_of_not_digit {line : List Char}
    (h : ((line.take 1).all fun c => !c.isDigit) = true) :
    rowCandidate line = none := by
  rcases line with _ | ⟨c, cs⟩
  · decide
  · simp only [List.take, List.all_cons, List.all_nil, Bool.and_true,
      Bool.not_eq_true'] at h
    have h1 : matchR1 (c :: cs) = false := by
      simp [matchR1, List.takeWhile_cons, h]
    have h2 : matchR2 (c :: cs) = false := by
      simp [matchR2, List.takeWhile_cons, h]
    have h3 : lineStartsDigit (c :: cs) = false := by
      simp [lineStartsDigit, h]
    simp [rowCandidate, h1, h2, h3]

/-- When no page contains the marker, the anchor scan fails from any start
index. -/
theorem findAnchorFrom_none {pages : List PageData}
    (h : ∀ p ∈ pages, hasSub markerChars (upperL p.text.data) = false) :
    ∀ i, findAnchorFrom i pages = none := by
  induction pages with
  | nil => intro i; rfl
  | cons p rest ih =>
    intro i
    unfold findAnchorFrom
    rw [h p (List.mem_cons_self p rest)]
    simp only [Bool.false_eq_true, if_false]
    exact ih (fun q hq => h q (List.mem_cons_of_mem p hq)) (i + 1)

/-- `findWM` is a correct leftmost-match search: either there is no match at
any position, or it returns the match at the least matching position. -/
theorem findWM_leftmost : ∀ cs : List Char,
    (findWM cs = none ∧ ∀ n, matchAtWM (cs.drop n) = none) ∨
    (∃ n t, findWM cs = some t ∧ matchAtWM (cs.drop n) = some t ∧
      ∀ m, m < n → matchAtWM (cs.drop m) = none) := by
  intro cs
  induction cs with
  | nil =>
    left
    exact ⟨rfl, fun n => by simp [List.drop_nil]; rfl⟩
  | cons c rest ih =>
    rcases hm : matchAtWM (c :: rest) with _ | t
    · rcases ih with ⟨h1, h2⟩ | ⟨n, t, h1, h2, h3⟩
      · left
        refine ⟨?_, ?_⟩
        · simp [findWM, hm, h1]
        · intro n
          cases n with
          | zero => simpa using hm
          | succ k => simpa using h2 k
      · right
        refine ⟨n + 1, t, ?_, ?_, ?_⟩
        · simp [findWM, hm, h1]
        · simpa using h2
        · intro m hlt
          cases m with
          | zero => simpa using hm
          | succ k => simpa using h3 k (Nat.lt_of_succ_lt_succ hlt)
    · right
      exact ⟨0, t, by simp [findWM, hm], by simpa using hm,
        fun m hlt => absurd hlt (Nat.not_lt_zero m)⟩

/-! ### Concrete inputs used by witnesses and counterexamples -/

set_option maxRecDepth 40000

/-- Witness page lines for the row-shape invariant. -/
def c1Lines : List (List Char) := ["TITLE LINE OK".data, "1  AB-1234  THING-X  7".data]

/-- The table that `extract_table_basic` produces on `c1Lines`. -/
def c1Table : TableData := ⟨1, "M", "TITLE LINE OK", [["1", "AB-1234", "THING-X", "7", ""]]⟩

/-- The synthetic page of the claimed RowAssembler round-trip. -/
def c2Lines : List (List Char) :=
  ["1  EM948630  DECAL, PUSH TO STOP  1".data, "NO.".data,
   "2..........07055-034.........V-BELT, 4L340".data]

/-- A digit-prefixed row followed by a wrapped continuation line. -/
def c3Lines : List (List Char) :=
  ["DRIVE ASSEMBLY".data, "1  EM948630  DECAL-HOLDER  1".data,
   "WRAPPED DESCRIPTION TEXT".data]

/-- A page whose only data rows sit after the first 15 lines. -/
def c4cexText : String :=
  String.intercalate "\n"
    (List.replicate 15 "zz" ++ List.replicate 3 "1  ABCD-123  WIDGET FRAME  2")

/-- Witness page text for the classifier: full header row plus data rows. -/
def c4wText : String :=
  String.intercalate "\n"
    ["CATALOG OF DRIVE COMPONENTS AND FASTENERS",
     "PART NO.  PART NAME  QTY  REMARKS", "1  QQ-1111  SPACER PLATE  4"]

/-- Witness page for the classifier claim. -/
def c4wPage : PageData := ⟨c4wText, [], 0⟩

/-- A page with 40 non-whitespace characters but stripped length 100: one
`A`, 60 interior spaces, 39 `B`s. -/
def c5cexText : String :=
  "A" ++ String.mk (List.replicate 60 ' ') ++ String.mk (List.replicate 39 'B')

/-- A genuinely short page (40 characters) with many drawings and a large
embedded image. -/
def c5wPage : PageData := ⟨String.mk (List.replicate 40 'B'), [(200, 300)], 999⟩

/-- A page that classifies as Table but contains no anchor marker. -/
def c6wText : String :=
  String.intercalate "\n"
    ["CATALOG SECTION FOR DRIVE COMPONENTS", "PART NO.  PART NAME  QTY  REMARKS",
     "1  AB-1234  WIDGET FRAME  2", "2  CD-5678  GADGET COVER  3"]

/-- The single page of the anchor-free witness document. -/
def c6wPage : PageData := ⟨c6wText, [], 0⟩

/-- Table-page lines whose data row contains `QTY` as a proper substring. -/
def c8aLines : List (List Char) :=
  ["FRAME ASSEMBLY DRAWING".data, "1  AB-1234  VALVE QTY HOLDER  2".data]

/-- The same lines with `QTY` replaced by `XYZ`. -/
def c8bLines : List (List Char) :=
  ["FRAME ASSEMBLY DRAWING".data, "1  AB-1234  VALVE XYZ HOLDER  2".data]

/-! ### Claims -/

/-- C1: every row appended by `extract_table_basic` has exactly 5 string
fields; each accepted row is its candidate field list truncated to the first
5 fields (order preserved) and right-padded with empty strings to length 5. -/
theorem c1_every_row_has_five_fields (lines : List (List Char)) (pageNum : Nat)
    (model : String) (t : TableData) (ht : t ∈ extractTableBasic lines pageNum model)
    (row : List String) (hr : row ∈ t.rows) :
    row.length = 5 ∧
      ∃ rd : List String, 2 ≤ rd.length ∧
        row = rd.take 5 ++ List.replicate (5 - rd.length) "" := by
  unfold extractTableBasic at ht
  split at ht
  · simp at ht
  · rw [List.mem_singleton] at ht
    subst ht
    replace hr : row ∈ lines.filterMap (lineToRow (findTitle lines)) := hr
    rw [List.mem_filterMap] at hr
    obtain ⟨raw, _, hsome⟩ := hr
    obtain ⟨rd, h2, hpad⟩ := lineToRow_shape hsome
    subst hpad
    exact ⟨rowPadded_length rd, rd, h2, rowPadded_eq rd⟩

/-- C1 witness: the invariant evaluated on a concrete two-line table page. -/
theorem c1_five_fields_witness :
    (["1", "AB-1234", "THING-X", "7", ""] : List String).length = 5 ∧
      ∃ rd : List String, 2 ≤ rd.length ∧
        (["1", "AB-1234", "THING-X", "7", ""] : List String)
          = rd.take 5 ++ List.replicate (5 - rd.length) "" :=
  c1_every_row_has_five_fields c1Lines 0 "M" c1Table (by decide)
    ["1", "AB-1234", "THING-X", "7", ""] (by decide)

/-- C2 counterexample: on the claimed synthetic page the extractor does NOT
return the claimed 2 rows — the first data line is consumed as the page
title and skipped, so only one row is produced. -/
theorem c2_counterexample :
    (extractTableBasic c2Lines 0 "M").map TableData.rows
      ≠ [[["1", "EM948630", "DECAL, PUSH TO STOP", "1", ""],
          ["2", "07055-034", "V-BELT, 4L340", "", ""]]] := by decide

/-- C2 (amended): the synthetic page yields exactly 1 row,
`["2", "07055-034", "V-BELT, 4L340", "", ""]`; the first line becomes the
detected page title (hence is skipped) and the header line `NO.` is
discarded by the minimum-length filter. -/
theorem c2_amended_single_row :
    (extractTableBasic c2Lines 0 "M").map TableData.rows
      = [[["2", "07055-034", "V-BELT, 4L340", "", ""]]] := by decide

/-- C3 counterexample: a continuation line following a digit-prefixed row is
not merged into that row — its text appears in no emitted field — because
the extractor has no pending-row buffer. -/
theorem c3_counterexample :
    (extractTableBasic c3Lines 0 "M").map TableData.rows
        = [[["1", "EM948630", "DECAL-HOLDER", "1", ""]]] ∧
      ((extractTableBasic c3Lines 0 "M").map TableData.rows).all
        (fun rs => rs.all fun r => r.all fun f => !(hasSub "WRAPPED".data f.data)) = true := by
  decide

/-- C3 (amended): a line whose stripped form does not start with a digit is
never emitted as a row and contributes nothing to any row — the per-line
step drops it entirely; there is no continuation buffer. -/
theorem c3_nondigit_line_dropped (title raw : List Char)
    (h : ((stripWs raw).take 1).all (fun c => !c.isDigit) = true) :
    lineToRow title raw = none := by
  unfold lineToRow
  split
  · rfl
  · split
    · rfl
    · rw [rowCandidate_none_of_not_digit h]

/-- C3 witness: a concrete wrapped-description line produces no row. -/
theorem c3_dropped_witness : lineToRow [] "WRAPPED TEXT CONTINUES HERE".data = none :=
  c3_nondigit_line_dropped [] _ (by decide)

/-- C4 counterexample: a page passing the length screen whose 3 data-row
lines all sit after the first 15 lines has a spec-side data-row count of 3
but is classified Diagram, because the code only scans `lines[:15]`. -/
theorem c4_counterexample :
    100 ≤ strippedLen c4cexText ∧ 3 ≤ dataRowCountSpec c4cexText ∧
      simpleTableCheck c4cexText = false ∧
      classifyPage ⟨c4cexText, [], 0⟩ = PageClass.diagram := by decide

/-- C4 (amended): for pages passing the minimum-length screen the classifier
labels Table iff the header-hit count is at least 2 OR the data-row hit
count over the FIRST 15 LINES is at least 3; otherwise Diagram. -/
theorem c4_classifier_first15 (p : PageData) (h : 100 ≤ strippedLen p.text) :
    (classifyPage p = PageClass.table
        ↔ (2 ≤ headerCount p.text ∨ 3 ≤ dataRowCount15 p.text)) ∧
      (classifyPage p = PageClass.diagram
        ↔ ¬(2 ≤ headerCount p.text ∨ 3 ≤ dataRowCount15 p.text)) := by
  have hlt : ¬strippedLen p.text < 100 := Nat.not_lt.mpr h
  unfold classifyPage
  rw [if_neg hlt]
  cases hb : simpleTableCheck p.text with
  | false =>
    have hcond : ¬(2 ≤ headerCount p.text ∨ 3 ≤ dataRowCount15 p.text) := by
      simpa [simpleTableCheck] using hb
    simp [hcond]
  | true =>
    have hcond : 2 ≤ headerCount p.text ∨ 3 ≤ dataRowCount15 p.text := by
      simpa [simpleTableCheck] using hb
    simp [hcond]

/-- C4 witness: the amended classifier equivalence on a concrete page. -/
theorem c4_first15_witness :
    100 ≤ strippedLen c4wPage.text ∧
      (classifyPage c4wPage = PageClass.table
        ↔ (2 ≤ headerCount c4wPage.text ∨ 3 ≤ dataRowCount15 c4wPage.text)) :=
  ⟨by decide, (c4_classifier_first15 c4wPage (by decide)).1⟩

/-- C5 counterexample: a page with non-whitespace text length 40 that is NOT
classified Skip — its interior whitespace makes `len(text.strip())` reach
100, so the code processes it (as Diagram). -/
theorem c5_counterexample :
    nonWsLen c5cexText = 40 ∧
      classifyPage ⟨c5cexText, [], 999⟩ = PageClass.diagram ∧
      classifyPage ⟨c5cexText, [], 999⟩ ≠ PageClass.skip := by decide

/-- C5 (amended): every page whose text length AFTER STRIPPING leading and
trailing whitespace (`len(text.strip())`) is below 100 is classified Skip,
regardless of its drawing-primitive count and image count. -/
theorem c5_short_page_skip (p : PageData) (h : strippedLen p.text < 100) :
    classifyPage p = PageClass.skip := by
  unfold classifyPage
  rw [if_pos h]

/-- C5 witness: a 40-character page with 999 drawings and a large embedded
image is still Skip. -/
theorem c5_skip_witness :
    strippedLen c5wPage.text < 100 ∧ classifyPage c5wPage = PageClass.skip :=
  ⟨by decide, c5_short_page_skip c5wPage (by decide)⟩

/-- C6: when no page's upper-cased text contains `SUGGESTED SPARE PARTS`,
the anchor locator returns `None` and the resulting ProcessingResult has an
empty spare-parts list, empty table list, and empty image list (with
`success` status), whatever the later pages contain. -/
theorem c6_no_anchor_empty_result (stem : String) (pages : List PageData)
    (h : ∀ p ∈ pages, hasSub markerChars (upperL p.text.data) = false) :
    findSparePartsPage pages = none ∧
      processPdf stem (DocInput.ok pages)
        = some ⟨extractModelNameSimple stem, [], [], [], "success"⟩ := by
  have hf : findSparePartsPage pages = none := findAnchorFrom_none h 0
  exact ⟨hf, by simp [processPdf, hf]⟩

/-- C6 witness: a one-page document whose page classifies as Table but
contains no marker yields the empty result. -/
theorem c6_no_anchor_witness :
    classifyPage c6wPage = PageClass.table ∧
      findSparePartsPage [c6wPage] = none ∧
      processPdf "WM77X-manual" (DocInput.ok [c6wPage])
        = some ⟨extractModelNameSimple "WM77X-manual", [], [], [], "success"⟩ :=
  ⟨by decide, (c6_no_anchor_empty_result "WM77X-manual" [c6wPage] (by decide)).1,
    (c6_no_anchor_empty_result "WM77X-manual" [c6wPage] (by decide)).2⟩

/-- C7 counterexample: `AB123-manual` contains a two-letters-then-digits
token (`AB123`), yet the function returns the stem unchanged, not the
upper-cased token — the compiled pattern requires the letters `WM`. -/
theorem c7_counterexample :
    specModelTokenPresent "AB123-manual".data = true ∧
      extractModelNameSimple "AB123-manual" = "AB123-manual" ∧
      ("AB123-manual" : String) ≠ "AB123" := by decide

/-- C7 (amended): the pattern is `WM` followed by digits and optional word
characters (case-insensitive), not any two letters: for every stem, either
no position matches and the stem is returned unchanged, or the leftmost
match is returned upper-cased. The function is total. -/
theorem c7_wm_pattern_leftmost (stem : String) :
    (extractModelNameSimple stem = stem ∧ ∀ n, matchAtWM (stem.data.drop n) = none) ∨
      (∃ n t, matchAtWM (stem.data.drop n) = some t ∧
        (∀ m, m < n → matchAtWM (stem.data.drop m) = none) ∧
        extractModelNameSimple stem = String.mk (t.map Char.toUpper)) := by
  rcases findWM_leftmost stem.data with ⟨h1, h2⟩ | ⟨n, t, h1, h2, h3⟩
  · exact Or.inl ⟨by simp [extractModelNameSimple, h1], h2⟩
  · exact Or.inr ⟨n, t, h2, h3, by simp [extractModelNameSimple, h1]⟩

/-- C8 counterexample: a data row containing `QTY` as a proper substring is
skipped (no row emitted), while the same line with `XYZ` instead produces a
row — the skip test is substring containment, not exact match. -/
theorem c8_counterexample :
    extractTableBasic c8aLines 0 "M" = [] ∧
      (extractTableBasic c8bLines 0 "M").map TableData.rows
        = [[["1", "AB-1234", "VALVE XYZ HOLDER", "2", ""]]] := by decide

/-- C8 (amended): a line is skipped whenever its upper-cased stripped form
CONTAINS any of the keywords NO., PART NO., PART NAME, QTY, REMARKS, PAGE,
MIXER, MANUAL, REV. as a substring (or equals the page title), so a data row
merely containing a keyword is skipped too. -/
theorem c8_keyword_substring_skips (title raw : List Char) (kw : String)
    (hk : kw ∈ skipWords) (hs : hasSub kw.data (upperL (stripWs raw)) = true) :
    lineToRow title raw = none := by
  unfold lineToRow
  split
  · rfl
  · split
    · rfl
    · rename_i hskip
      have hsl : skipLineB title (stripWs raw) = true := by
        unfold skipLineB
        have hany : skipWords.any (fun w => hasSub w.data (upperL (stripWs raw))) = true :=
          List.any_eq_true.mpr ⟨kw, hk, hs⟩
        rw [hany]
        rfl
      exact absurd hsl hskip

/-- C8 witness: a concrete data row containing `QTY` produces no row. -/
theorem c8_skip_witness : lineToRow [] "1  CD-9999  QTY BRACKET  3".data = none :=
  c8_keyword_substring_skips [] _ "QTY" (by decide) (by decide)

/-- C9 counterexample: when the file does not exist, `process_pdf_simple`
returns `None` — the caller does not receive a ProcessingResult with error
status. -/
theorem c9_counterexample : processPdf "WM63SLF-parts-manual" DocInput.missing = none := rfl

/-- C9 (amended): a missing file yields no ProcessingResult at all (`None`);
an open fault raised while opening yields a result with status
`error: <detail>`; a successful traversal yields status `success`. -/
theorem c9_status_by_outcome (stem e : String) (pages : List PageData) :
    (processPdf stem (DocInput.openError e)).map ProcResult.status
        = some ("error: " ++ e) ∧
      (processPdf stem (DocInput.ok pages)).map ProcResult.status = some "success" := by
  refine ⟨rfl, ?_⟩
  rcases hf : findSparePartsPage pages with _ | i <;> simp [processPdf, hf]

/-- C10: whenever the upper-cased page text contains `PART NO.`, the token
`NO.` is also counted (substring containment), so the header-hit count is at
least 2 and `simple_table_check` returns true — the page is classified
Table even with no data-row-shaped line and no other header token. -/
theorem c10_part_no_double_count (text : String)
    (h : hasSub "PART NO.".data (upperL text.data) = true) :
    2 ≤ headerCount text ∧ simpleTableCheck text = true := by
  have hno : hasSub "NO.".data (upperL text.data) = true := by
    rw [hasSub_iff] at h ⊢
    exact List.IsInfix.trans ⟨"PART ".data, [], by decide⟩ h
  have h2 : 2 ≤ headerCount text := by
    unfold headerCount tableIndicators
    simp only [List.countP_cons, List.countP_nil, hno, h, if_true]
    omega
  refine ⟨h2, ?_⟩
  unfold simpleTableCheck
  rw [decide_eq_true h2]
  rfl

/-- C10 witness: a page text containing only `part no.` (and no data rows)
already counts 2 header hits and passes the table check. -/
theorem c10_witness :
    2 ≤ headerCount "see part no. column for details" ∧
      simpleTableCheck "see part no. column for details" = true :=
  c10_part_no_double_count _ (by decide)

end PDFProc

